import Mathlib

/-!
Verification development for `mcp_server.py`: a shallow embedding of the
tool catalog (`list_tools`) and the tool dispatcher (`call_tool`) of the
agricultural MCP server, together with theorems about the dispatch
behaviour of the three registered tools.

Python values appearing in argument bags and JSON payloads are modelled by
the inductive type `Json`; Python dictionary/index access, `dict.get`,
slicing and `str()` rendering are modelled by total Lean functions that
return `Except String _` where the Python operation can raise, carrying the
exception text.  The two outbound HTTP fetches are modelled by an
environment `Env : String → Except String Json` mapping a request URL to
either the parsed JSON payload (the successful path through
`response.raise_for_status(); response.json()`) or the stringified
exception raised by the request/status-check/parse.
-/

/-- A Python/JSON value: `None`, a string, an integer, a list, or a dict
(association list, first binding wins as in insertion-ordered dicts). -/
inductive Json where
  | null : Json
  | str : String → Json
  | num : Int → Json
  | arr : List Json → Json
  | obj : List (String × Json) → Json

mutual

/-- Python `repr` of a value, used when values are rendered inside
containers by an f-string. -/
def pyRepr : Json → String
  | .null => "None"
  | .str s => "\u0027" ++ s ++ "\u0027"
  | .num n => toString n
  | .arr xs => "[" ++ pyReprItems xs ++ "]"
  | .obj fs => "\x7b" ++ pyReprFields fs ++ "\x7d"

/-- Comma-separated `repr`s of list items. -/
def pyReprItems : List Json → String
  | [] => ""
  | [x] => pyRepr x
  | x :: y :: xs => pyRepr x ++ ", " ++ pyReprItems (y :: xs)

/-- Comma-separated `repr`s of dict entries. -/
def pyReprFields : List (String × Json) → String
  | [] => ""
  | [(k, v)] => "\u0027" ++ k ++ "\u0027: " ++ pyRepr v
  | (k, v) :: f :: fs =>
      "\u0027" ++ k ++ "\u0027: " ++ pyRepr v ++ ", " ++ pyReprFields (f :: fs)

end

/-- Python `str` of a value, as interpolated by an f-string. -/
def pyStr : Json → String
  | .str s => s
  | j => pyRepr j

/-- Python `str` of a value that may be `None` (an absent argument). -/
def pyStrOpt : Option Json → String
  | none => "None"
  | some j => pyStr j

/-- An argument bag: the `arguments` mapping passed to `call_tool`. -/
abbrev Args := List (String × Json)

/-- Python `arguments.get(key)`: `None` (here `none`) when absent. -/
def pyGet (args : Args) (key : String) : Option Json :=
  match args.find? (fun p => p.1 == key) with
  | some p => some p.2
  | none => none

/-- Python `arguments.get(key, dflt)`. -/
def pyGetD (args : Args) (key : String) (dflt : Json) : Json :=
  (pyGet args key).getD dflt

/-- Python `x[k]` for a string key `k`: a `KeyError` (whose `str` is the
quoted key) on a dict without the key, a `TypeError` on a non-dict. -/
def pySubscriptKey : Json → String → Except String Json
  | .obj fs, k =>
      match fs.find? (fun p => p.1 == k) with
      | some p => .ok p.2
      | none => .error ("\u0027" ++ k ++ "\u0027")
  | _, _ => .error "object is not subscriptable"

/-- Python `x[i]` for a non-negative integer index: an `IndexError` past the
end of a list, a `TypeError` on a non-list. -/
def pySubscriptIdx : Json → Nat → Except String Json
  | .arr xs, i =>
      match xs.get? i with
      | some x => .ok x
      | none => .error "list index out of range"
  | _, _ => .error "object is not subscriptable"

/-- Python `x.get(key, dflt)` on a dict; an `AttributeError` otherwise. -/
def pyDictGetD : Json → String → Json → Except String Json
  | .obj fs, k, dflt =>
      match fs.find? (fun p => p.1 == k) with
      | some p => .ok p.2
      | none => .ok dflt
  | _, _, _ => .error "object has no attribute get"

/-- Python `xs[:k]` on a list: the first `k` entries for `k ≥ 0`, and all
entries except the last `|k|` for `k < 0`. -/
def pySliceTo (xs : List α) (k : Int) : List α :=
  if 0 ≤ k then xs.take k.toNat else xs.take (xs.length - (-k).toNat)

/-- Python `x[:k]` on a JSON value: slices lists and strings, raises a
`TypeError` otherwise. -/
def pySliceVal : Json → Int → Except String Json
  | .arr xs, k => .ok (.arr (pySliceTo xs k))
  | .str s, k => .ok (.str (pySliceTo s.toList k).asString)
  | _, _ => .error "object is not subscriptable"

/-- Python `x[:limitVal]` where the bound itself is a runtime value: a
`TypeError` when the bound is not an integer. -/
def pySliceByVal (x : Json) (limitVal : Json) : Except String Json :=
  match limitVal with
  | .num k => pySliceVal x k
  | _ =>
      match x with
      | .arr _ => .error "slice indices must be integers"
      | .str _ => .error "slice indices must be integers"
      | _ => .error "object is not subscriptable"

/-- Python iteration `for p in posts`: list elements, or the characters of a
string as one-character strings; a `TypeError` otherwise. -/
def pyIter : Json → Except String (List Json)
  | .arr xs => .ok xs
  | .str s => .ok (s.toList.map (fun c => .str (String.mk [c])))
  | _ => .error "object is not iterable"

/-- Python `len(x)`. -/
def pyLen : Json → Except String Nat
  | .arr xs => .ok xs.length
  | .str s => .ok s.length
  | .obj fs => .ok fs.length
  | _ => .error "object has no len"

/-- The outcome of each outbound HTTP GET, as a function of the request
URL: either the parsed JSON payload or the stringified exception raised by
the request, the status check or the payload parse. -/
def Env : Type := String → Except String Json

/-- The wttr.in request URL built by `fetch_weather_data`. -/
def weatherUrl (city : String) : String :=
  "https://wttr.in/" ++ city ++ "?format=j1"

/-- The fixed JSONPlaceholder request URL of the posts handler. -/
def postsUrl : String := "https://jsonplaceholder.typicode.com/posts"

/-- `fetch_weather_data`: performs the GET for the city and re-raises any
failure as `Exception("Failed to fetch weather data: " + str(e))`. -/
def fetch_weather_data (city : String) (env : Env) : Except String Json :=
  match env (weatherUrl city) with
  | .ok data => .ok data
  | .error e => .error ("Failed to fetch weather data: " ++ e)

/-- The multi-line weather template filled in by the weather handler. -/
def weatherReport (city : String) (temp cond hum wind : Json) : String :=
  "🌤️  Current Weather in " ++ city ++ ":\n" ++
  "━━━━━━━━━━━━━━━━━━━━━━━━━━━━\n" ++
  "Temperature: " ++ pyStr temp ++ "°C\n" ++
  "Condition: " ++ pyStr cond ++ "\n" ++
  "Humidity: " ++ pyStr hum ++ "%\n" ++
  "Wind Speed: " ++ pyStr wind ++ " km/h"

/-- The body of the `try` block of the weather handler: fetch, extract
`data["current_condition"][0]`, and fill the template; any step may fail
with the exception text that the `except` clause stringifies. -/
def weatherBody (city : String) (env : Env) : Except String String := do
  let data ← fetch_weather_data city env
  let cc ← pySubscriptKey data "current_condition"
  let current ← pySubscriptIdx cc 0
  let temp ← pySubscriptKey current "temp_C"
  let wdesc ← pySubscriptKey current "weatherDesc"
  let wdesc0 ← pySubscriptIdx wdesc 0
  let cond ← pySubscriptKey wdesc0 "value"
  let hum ← pySubscriptKey current "humidity"
  let wind ← pyDictGetD current "windspeedKmph" (Json.str "N/A")
  return weatherReport city temp cond hum wind

/-- A content block of a tool result; the dispatcher only ever produces
blocks with `type = "text"`. -/
structure TextContent where
  type : String
  text : String
deriving DecidableEq

/-- The weather branch of `call_tool`: the `try`/`except` around the
handler body, converting any failure into a textual error block. -/
def handleWeather (cityVal : Option Json) (env : Env) : List TextContent :=
  match weatherBody (pyStrOpt cityVal) env with
  | .ok s => [⟨"text", s⟩]
  | .error e => [⟨"text", "Error fetching weather: " ++ e⟩]

/-- One entry of the posts listing:
the post number, the title, and the body excerpt with ellipsis. -/
def postEntry (p : Json) : Except String String := do
  let pid ← pySubscriptKey p "id"
  let ptitle ← pySubscriptKey p "title"
  let pbody ← pySubscriptKey p "body"
  let excerpt ← pySliceVal pbody 100
  return "📝 Post #" ++ pyStr pid ++ ": " ++ pyStr ptitle ++ "\n" ++ pyStr excerpt ++ "..."

/-- The list comprehension building `formatted_posts`, failing on the first
entry whose formatting raises. -/
def formatPosts : List Json → Except String (List String)
  | [] => .ok []
  | p :: ps => do
      let s ← postEntry p
      let rest ← formatPosts ps
      return s :: rest

/-- The body of the `try` block of the posts handler: fetch the collection,
truncate it client-side with `[:limit]`, format the retained entries and
prepend the count summary. -/
def postsBody (limitVal : Json) (env : Env) : Except String String := do
  let jsonData ← env postsUrl
  let posts ← pySliceByVal jsonData limitVal
  let items ← pyIter posts
  let fps ← formatPosts items
  let n ← pyLen posts
  return "📚 Fetched " ++ toString n ++ " blog posts:\n\n" ++ String.intercalate "\n\n" fps

/-- The posts branch of `call_tool`: the `try`/`except` around the handler
body, converting any failure into a textual error block. -/
def handlePosts (limitVal : Json) (env : Env) : List TextContent :=
  match postsBody limitVal env with
  | .ok s => [⟨"text", s⟩]
  | .error e => [⟨"text", "Error fetching posts: " ++ e⟩]

/-- The static text of the pesticide/seed handler before the interpolated
query (ends with the `Query: ` header label). -/
def pesticideHead : String :=
  "🌾 Welcome to Pesticide and Seed Information Service! 🌱\n━━━━━━━━━━━━━━━━━━━━━━━━━━━━━━━━━━━━━━━━━━━━━━━━\n\nQuery: "

/-- The static text of the pesticide/seed handler after the interpolated
query: the full reference document, invariant across invocations. -/
def pesticideTail : String :=
  "\n\nI will fetch comprehensive information about seeds and pesticides for you!\n\n📋 Services Available:\n  • Seed recommendations for different crops\n  • Organic and chemical pesticide information\n  • Seasonal planting guides\n  • Pest identification and treatment\n  • Fertilizer recommendations\n  • Crop rotation strategies\n\n🔜 Coming Soon:\n  - Real-time pest alerts\n  - Seed supplier database\n  - Pesticide safety guidelines\n  - Crop yield predictions\n\n💡 Tip: Ask me about specific crops, pests, or farming techniques!Pesticide Practices for Citrus Cultivation in India\nFocus Crop: Mosambi (Sweet Lemon)\n1. Introduction: Importance of Pest Management in Citrus\n\nCitrus crops such as Mosambi (Sweet Lemon) are economically important fruit crops cultivated widely across India, especially in Maharashtra, Telangana, Andhra Pradesh, Madhya Pradesh, and parts of North India. These crops are high-value, long-duration perennial plants, meaning that pest and disease pressure accumulates over multiple seasons if not managed properly.\n\nPests in citrus affect:\n\nLeaf health (photosynthesis)\n\nFlowering and fruit set\n\nFruit quality and size\n\nTree longevity and yield consistency\n\nBecause citrus orchards remain productive for 15–25 years, improper pesticide use can lead to:\n\nPest resistance\n\nSoil and water contamination\n\nLoss of beneficial insects\n\nHigher long-term costs for farmers\n\nHence, scientific, need-based pesticide application is critical.\n\n2. Major Insect Pests in Mosambi and Commonly Used Pesticides\n2.1 Citrus Psylla (Diaphorina citri)\n\nNature of Damage\n\nSucks sap from tender leaves and shoots\n\nCauses leaf curling and stunted growth\n\nMajor vector of Citrus Greening (HLB) disease\n\nSeason of Occurrence\n\nPeak during new flush (Feb–March, July–September)\n\nCommonly Used Pesticides\n\nImidacloprid 17.8% SL (soil drenching or foliar spray)\n\nThiamethoxam 25% WG\n\nAcetamiprid 20% SP\n\nApplication Notes\n\nAvoid spraying during flowering\n\nPrefer soil drenching to reduce impact on pollinators\n\nRotate molecules to prevent resistance\n\n2.2 Citrus Leaf Miner\n\nNature of Damage\n\nLarvae create zig-zag tunnels in young leaves\n\nSeverely affects nursery plants and young orchards\n\nIncreases susceptibility to citrus canker\n\nSeason of Occurrence\n\nHigh during monsoon and post-monsoon flush\n\nCommonly Used Pesticides\n\nAbamectin 1.9% EC\n\nSpinosad 45% SC\n\nEmamectin benzoate 5% SG\n\nIntegrated Practice\n\nSpray only during active leaf flush\n\nAvoid repeated spraying on mature leaves\n\n2.3 Aphids\n\nNature of Damage\n\nSap sucking leads to leaf distortion\n\nProduces honeydew, encouraging sooty mold\n\nTransmits viral diseases\n\nCommonly Used Pesticides\n\nDimethoate 30% EC\n\nImidacloprid 17.8% SL\n\nFlonicamid 50% WG\n\nPrecautions\n\nMonitor colonies before spraying\n\nAvoid overuse of organophosphates\n\n2.4 Mealybugs\n\nNature of Damage\n\nAttacks shoots, leaves, fruits, and roots\n\nCauses fruit drop and plant weakening\n\nSevere infestation can kill young trees\n\nCommonly Used Pesticides\n\nChlorpyrifos 20% EC (restricted use, soil application)\n\nBuprofezin 25% SC\n\nSpirotetramat 15.31% OD\n\nAdditional Measures\n\nUse sticky bands on trunks\n\nControl ants that spread mealybugs\n\n2.5 Red Spider Mites\n\nNature of Damage\n\nYellow speckling on leaves\n\nLeaf bronzing and premature leaf fall\n\nReduced fruit size and juice content\n\nCommonly Used Acaricides\n\nPropargite 57% EC\n\nFenazaquin 10% EC\n\nHexythiazox 5% EC\n\nBest Practice\n\nSpray early during infestation\n\nEnsure proper spray coverage on leaf undersides\n\n3. Major Diseases and Fungicide Usage in Citrus\n3.1 Citrus Canker (Bacterial Disease)\n\nSymptoms\n\nRaised corky lesions on leaves, stems, and fruits\n\nFruit drop and market rejection\n\nCommon Chemicals Used\n\nCopper oxychloride 50% WP\n\nStreptocycline (with copper fungicide)\n\nBordeaux mixture (1%)\n\nManagement Strategy\n\nAvoid spraying antibiotics repeatedly\n\nFocus on sanitation and pruning\n\n3.2 Phytophthora (Root Rot, Gummosis)\n\nSymptoms\n\nGum oozing from trunk\n\nRoot decay and wilting\n\nSudden plant death in severe cases\n\nCommon Fungicides\n\nMetalaxyl + Mancozeb\n\nFosetyl-Al\n\nCopper-based fungicides (soil drench)\n\nPreventive Measures\n\nProper drainage\n\nAvoid water stagnation near trunk\n\n3.3 Powdery Mildew\n\nSymptoms\n\nWhite powdery growth on leaves and flowers\n\nReduced fruit set\n\nCommon Fungicides\n\nSulphur 80% WP\n\nHexaconazole 5% EC\n\nPenconazole\n4. Safe Pesticide Application Practices for Farmers\n4.1 Dosage and Timing\n\nAlways follow label-recommended dose\n\nSpray during early morning or late evening\n\nAvoid spraying during strong winds or rain\n\n4.2 Spraying Equipment\n\nUse cone nozzle for uniform coverage\n\nCalibrate sprayers regularly\n\nSeparate sprayers for herbicides and insecticides\n\n4.3 Pre-Harvest Interval (PHI)\n\nRespect PHI to avoid pesticide residues\n\nImportant for export-quality fruits\n\n5. Resistance Management and Pesticide Rotation\n\nOveruse of the same pesticide leads to resistance development, making future control difficult.\n\nBest Practices\n\nRotate pesticides with different modes of action\n\nAvoid more than 2 consecutive sprays of the same chemical group\n\nCombine chemical control with biological methods\n\n6. Role of Integrated Pest Management (IPM)\n\nChemical pesticides should be part of a broader IPM strategy, including:\n\nRegular orchard monitoring\n\nUse of pheromone traps\n\nConservation of beneficial insects (ladybird beetles, lacewings)\n\nNeem-based products (Azadirachtin)\n\nIPM reduces:\n\nInput costs\n\nEnvironmental damage\n\nHealth risks to farmers\n\n7. Regulatory and Environmental Considerations\n\nSeveral pesticides are restricted or banned if misused\n\nExcessive residues can lead to rejection in domestic and export markets\n\nFarmers should stay updated via:\n\nState agriculture departments\n\nKrishi Vigyan Kendras (KVKs)\n\nAuthorized agri-input dealers\n\n8. Conclusion\n\nPesticide use in Mosambi cultivation must be scientific, minimal, and need-based. While pesticides play a vital role in protecting citrus crops from pests and diseases, indiscriminate spraying harms both productivity and sustainability.\n\nA well-informed farmer who:\n\nIdentifies pests correctly\n\nApplies the right chemical at the right time\n\nIntegrates non-chemical practices\n\nwill achieve higher yields, better fruit quality, and long-term orchard health.\n"

/-- The response of the pesticide/seed handler: the static text with the
query of the caller interpolated into the `Query:` header line. -/
def pesticideResponse (queryVal : Json) : String :=
  pesticideHead ++ pyStr queryVal ++ pesticideTail

/-- `call_tool`: the dispatcher, branching on the tool name exactly as the
if/elif chain of the source does, with the unknown-name fallthrough. -/
def call_tool (name : String) (arguments : Args) (env : Env) : List TextContent :=
  if name = "get_current_weather" then
    handleWeather (pyGet arguments "city") env
  else if name = "get_placeholder_posts" then
    handlePosts (pyGetD arguments "limit" (Json.num 5)) env
  else if name = "get_pesticide_seed_info" then
    [⟨"text", pesticideResponse (pyGetD arguments "query" (Json.str "general information"))⟩]
  else
    [⟨"text", "Unknown tool: " ++ name⟩]

/-- A tool descriptor, as advertised by the listing operation. -/
structure Tool where
  name : String
  description : String
  inputSchema : Json

/-- `list_tools`: the static catalog of the three registered tools, with
the input schemas exactly as declared in the source. -/
def list_tools : List Tool :=
  [ ⟨"get_current_weather",
     "Get current weather conditions for a specific city or location. Use this when users ask about weather, temperature, or climate.",
     .obj [("type", .str "object"),
           ("properties", .obj [("city", .obj
             [("type", .str "string"),
              ("description", .str "Name of the city to get weather for")])]),
           ("required", .arr [.str "city"])]⟩,
    ⟨"get_placeholder_posts",
     "Fetch mock blog posts from JSONPlaceholder API. Use this when users ask about posts, blogs, or articles.",
     .obj [("type", .str "object"),
           ("properties", .obj [("limit", .obj
             [("type", .str "integer"),
              ("description", .str "Number of posts to fetch (1-100)"),
              ("minimum", .num 1),
              ("maximum", .num 100),
              ("default", .num 5)])]),
           ("required", .arr [])]⟩,
    ⟨"get_pesticide_seed_info",
     "Get information about pesticides and seeds for agricultural purposes. Use this when users ask about farming, agriculture, pesticides, seeds, crops, or planting.",
     .obj [("type", .str "object"),
           ("properties", .obj [("query", .obj
             [("type", .str "string"),
              ("description", .str "What the user wants to know about (e.g., \u0027organic pesticides\u0027, \u0027wheat seeds\u0027, \u0027tomato farming\u0027)"),
              ("default", .str "general information")])]),
           ("required", .arr [])]⟩ ]

/-- Bind of a successful `Except` computation reduces to the continuation. -/
theorem ok_bind (a : α) (f : α → Except String β) :
    ((Except.ok a : Except String α) >>= f) = f a := rfl

/-- Bind of a failed `Except` computation propagates the failure. -/
theorem error_bind (e : String) (f : α → Except String β) :
    ((Except.error e : Except String α) >>= f) = Except.error e := rfl

/-- A bound `Except` chain succeeds exactly when both stages succeed. -/
theorem bind_eq_ok_iff (x : Except String α) (f : α → Except String β) (b : β) :
    (x >>= f) = .ok b ↔ ∃ a, x = .ok a ∧ f a = .ok b := by
  cases x with
  | error e => exact ⟨fun h => Except.noConfusion h, fun ⟨a, ha, _⟩ => Except.noConfusion ha⟩
  | ok a => exact ⟨fun h => ⟨a, rfl, h⟩, fun ⟨a2, ha, hf⟩ => by cases ha; exact hf⟩

/-- Every successful weather-handler body is the filled-in template. -/
theorem weatherBody_ok_shape (city : String) (env : Env) (s : String)
    (h : weatherBody city env = .ok s) :
    ∃ temp cond hum wind, s = weatherReport city temp cond hum wind := by
  unfold weatherBody at h
  rw [bind_eq_ok_iff] at h
  obtain ⟨data, _, h⟩ := h
  rw [bind_eq_ok_iff] at h
  obtain ⟨cc, _, h⟩ := h
  rw [bind_eq_ok_iff] at h
  obtain ⟨cur, _, h⟩ := h
  rw [bind_eq_ok_iff] at h
  obtain ⟨temp, _, h⟩ := h
  rw [bind_eq_ok_iff] at h
  obtain ⟨wdesc, _, h⟩ := h
  rw [bind_eq_ok_iff] at h
  obtain ⟨wdesc0, _, h⟩ := h
  rw [bind_eq_ok_iff] at h
  obtain ⟨cond, _, h⟩ := h
  rw [bind_eq_ok_iff] at h
  obtain ⟨hum, _, h⟩ := h
  rw [bind_eq_ok_iff] at h
  obtain ⟨wind, _, h⟩ := h
  refine ⟨temp, cond, hum, wind, ?_⟩
  cases h
  rfl

/-- The weather-handler body reads the environment only at the wttr.in URL
of its city. -/
theorem weatherBody_env_congr (city : String) (env env2 : Env)
    (h : env (weatherUrl city) = env2 (weatherUrl city)) :
    weatherBody city env = weatherBody city env2 := by
  unfold weatherBody fetch_weather_data
  rw [h]

/-- Dispatch on the weather tool name selects the weather branch. -/
theorem call_tool_weather (arguments : Args) (env : Env) :
    call_tool "get_current_weather" arguments env =
      handleWeather (pyGet arguments "city") env := rfl

/-- Dispatch on the posts tool name selects the posts branch with the
default-5 argument read. -/
theorem call_tool_posts (arguments : Args) (env : Env) :
    call_tool "get_placeholder_posts" arguments env =
      handlePosts (pyGetD arguments "limit" (Json.num 5)) env := rfl

/-- Dispatch on the pesticide tool name yields the static response with the
default-substituted query read. -/
theorem call_tool_pesticide (arguments : Args) (env : Env) :
    call_tool "get_pesticide_seed_info" arguments env =
      [⟨"text", pesticideResponse (pyGetD arguments "query" (Json.str "general information"))⟩] :=
  rfl

/-- A well-formed post object, as returned by the JSONPlaceholder API. -/
def mkPost (t : Int × String × String) : Json :=
  Json.obj [("id", Json.num t.1), ("title", Json.str t.2.1), ("body", Json.str t.2.2)]

/-- The body excerpt of one formatted post entry: the first 100 characters
of the body followed by the three-character ellipsis marker. -/
def postExcerpt (b : String) : String :=
  (b.toList.take 100).asString ++ "..."

/-- One formatted post entry of the posts listing. -/
def postLine (t : Int × String × String) : String :=
  "📝 Post #" ++ toString t.1 ++ ": " ++ t.2.1 ++ "\n" ++ postExcerpt t.2.2

/-- The complete posts result text: count summary plus the formatted
entries of the retained posts. -/
def postsSummary (ts : List (Int × String × String)) : String :=
  "📚 Fetched " ++ toString ts.length ++ " blog posts:\n\n" ++
    String.intercalate "\n\n" (ts.map postLine)

/-- Formatting a well-formed post object never fails and produces the
entry line. -/
theorem postEntry_mkPost (t : Int × String × String) :
    postEntry (mkPost t) = .ok (postLine t) := by
  unfold postLine postExcerpt
  rw [← String.append_assoc]
  rfl

/-- Formatting a list of well-formed post objects never fails. -/
theorem formatPosts_map_mkPost (ts : List (Int × String × String)) :
    formatPosts (ts.map mkPost) = .ok (ts.map postLine) := by
  induction ts with
  | nil => rfl
  | cons t ts ih =>
      show formatPosts (mkPost t :: ts.map mkPost) = _
      unfold formatPosts
      rw [postEntry_mkPost, ok_bind, ih, ok_bind]
      rfl

/-- Client-side truncation commutes with mapping over the collection. -/
theorem pySliceTo_map (f : α → β) (xs : List α) (k : Int) :
    pySliceTo (xs.map f) k = (pySliceTo xs k).map f := by
  unfold pySliceTo
  rw [List.length_map]
  split <;> rw [List.map_take]

/-- The posts-handler body on a collection of well-formed posts: truncate
with the raw `limit` value and format the retained entries. -/
theorem postsBody_ok (ts : List (Int × String × String)) (env : Env) (k : Int)
    (henv : env postsUrl = .ok (.arr (ts.map mkPost))) :
    postsBody (Json.num k) env = .ok (postsSummary (pySliceTo ts k)) := by
  unfold postsBody
  rw [henv, ok_bind]
  rw [show pySliceByVal (Json.arr (ts.map mkPost)) (Json.num k) =
        .ok (.arr (pySliceTo (ts.map mkPost) k)) from rfl, ok_bind]
  rw [show pyIter (Json.arr (pySliceTo (ts.map mkPost) k)) =
        .ok (pySliceTo (ts.map mkPost) k) from rfl, ok_bind]
  rw [pySliceTo_map]
  rw [formatPosts_map_mkPost, ok_bind]
  rw [show pyLen (Json.arr ((pySliceTo ts k).map mkPost)) =
        .ok ((pySliceTo ts k).map mkPost).length from rfl, ok_bind]
  rw [List.length_map]
  rfl

/-- The posts branch on a collection of well-formed posts returns the
single summary block. -/
theorem handlePosts_ok (ts : List (Int × String × String)) (env : Env) (k : Int)
    (henv : env postsUrl = .ok (.arr (ts.map mkPost))) :
    handlePosts (Json.num k) env = [⟨"text", postsSummary (pySliceTo ts k)⟩] := by
  unfold handlePosts
  rw [postsBody_ok ts env k henv]

/-- C1: for every tool name and every argument bag (and every fetch
environment), the dispatch operation returns exactly one result containing
exactly one text content block; for the three known tool names every
failure of the handler body is converted into a textual error message in
that block (the dispatcher is total and always yields a singleton list of
one `"text"` block). -/
theorem c1_call_tool_always_one_text_block (name : String) (arguments : Args) (env : Env) :
    ∃ s : String, call_tool name arguments env = [⟨"text", s⟩] := by
  unfold call_tool
  by_cases h1 : name = "get_current_weather"
  · rw [if_pos h1]
    unfold handleWeather
    cases hw : weatherBody (pyStrOpt (pyGet arguments "city")) env with
    | ok s => exact ⟨s, rfl⟩
    | error e => exact ⟨"Error fetching weather: " ++ e, rfl⟩
  · rw [if_neg h1]
    by_cases h2 : name = "get_placeholder_posts"
    · rw [if_pos h2]
      unfold handlePosts
      cases hp : postsBody (pyGetD arguments "limit" (Json.num 5)) env with
      | ok s => exact ⟨s, rfl⟩
      | error e => exact ⟨"Error fetching posts: " ++ e, rfl⟩
    · rw [if_neg h2]
      by_cases h3 : name = "get_pesticide_seed_info"
      · rw [if_pos h3]
        exact ⟨pesticideResponse (pyGetD arguments "query" (Json.str "general information")), rfl⟩
      · rw [if_neg h3]
        exact ⟨"Unknown tool: " ++ name, rfl⟩

/-- The declared schema of the `city` field of the weather tool. -/
def citySchema : Json :=
  .obj [("type", .str "string"),
        ("description", .str "Name of the city to get weather for")]

/-- The declared schema of the `limit` field of the posts tool. -/
def limitSchema : Json :=
  .obj [("type", .str "integer"),
        ("description", .str "Number of posts to fetch (1-100)"),
        ("minimum", .num 1),
        ("maximum", .num 100),
        ("default", .num 5)]

/-- The declared schema of the `query` field of the pesticide tool. -/
def querySchema : Json :=
  .obj [("type", .str "string"),
        ("description", .str "What the user wants to know about (e.g., \u0027organic pesticides\u0027, \u0027wheat seeds\u0027, \u0027tomato farming\u0027)"),
        ("default", .str "general information")]

/-- C2: the listing operation (a pure constant, hence identical on every
call within a process lifetime) returns exactly three tool descriptors:
`get_current_weather` with required string field `city` and no other
fields and no default; `get_placeholder_posts` with no required fields and
sole optional integer `limit` with default 5, minimum 1, maximum 100;
`get_pesticide_seed_info` with no required fields and sole optional string
`query` with default "general information". -/
theorem c2_list_tools_catalog :
    list_tools.length = 3 ∧
    list_tools.map Tool.name =
      ["get_current_weather", "get_placeholder_posts", "get_pesticide_seed_info"] ∧
    list_tools.map (fun t => pySubscriptKey t.inputSchema "required") =
      [.ok (.arr [.str "city"]), .ok (.arr []), .ok (.arr [])] ∧
    list_tools.map (fun t => pySubscriptKey t.inputSchema "properties") =
      [.ok (.obj [("city", citySchema)]),
       .ok (.obj [("limit", limitSchema)]),
       .ok (.obj [("query", querySchema)])] ∧
    pySubscriptKey citySchema "type" = .ok (.str "string") ∧
    pySubscriptKey citySchema "default" = .error "\u0027default\u0027" ∧
    pySubscriptKey limitSchema "type" = .ok (.str "integer") ∧
    pySubscriptKey limitSchema "default" = .ok (.num 5) ∧
    pySubscriptKey limitSchema "minimum" = .ok (.num 1) ∧
    pySubscriptKey limitSchema "maximum" = .ok (.num 100) ∧
    pySubscriptKey querySchema "type" = .ok (.str "string") ∧
    pySubscriptKey querySchema "default" = .ok (.str "general information") :=
  ⟨rfl, rfl, rfl, rfl, rfl, rfl, rfl, rfl, rfl, rfl, rfl, rfl⟩

/-- C3: dispatching any tool name that is none of the three registered
names yields a single text block whose text is exactly `"Unknown tool: "`
followed by the given name. -/
theorem c3_unknown_tool (name : String) (arguments : Args) (env : Env)
    (h1 : name ≠ "get_current_weather")
    (h2 : name ≠ "get_placeholder_posts")
    (h3 : name ≠ "get_pesticide_seed_info") :
    call_tool name arguments env = [⟨"text", "Unknown tool: " ++ name⟩] := by
  unfold call_tool
  rw [if_neg h1, if_neg h2, if_neg h3]

/-- C3 witness: the name `"not_a_tool"` yields exactly
`"Unknown tool: not_a_tool"`. -/
theorem c3_unknown_tool_witness :
    call_tool "not_a_tool" [] (fun _ => .error "down") =
      [⟨"text", "Unknown tool: not_a_tool"⟩] := by
  have h := c3_unknown_tool "not_a_tool" [] (fun _ => .error "down")
    (by decide) (by decide) (by decide)
  exact h.trans (by decide)

/-- C4: for every query string present in the arguments, the pesticide
handler never fails and returns the single text block made of the fixed
text before the query, the query itself verbatim in the `Query:` header
line, and the fixed reference text after it; everything but the
interpolated query is the same constant on every invocation. -/
theorem c4_pesticide_query_verbatim (q : String) (arguments : Args) (env : Env)
    (h : pyGet arguments "query" = some (Json.str q)) :
    call_tool "get_pesticide_seed_info" arguments env =
      [⟨"text", pesticideHead ++ q ++ pesticideTail⟩] := by
  rw [call_tool_pesticide]
  unfold pesticideResponse pyGetD
  rw [h]
  rfl

/-- C4 witness: the empty query string is interpolated verbatim between
the two static parts. -/
theorem c4_pesticide_query_verbatim_witness :
    call_tool "get_pesticide_seed_info" [("query", Json.str "")]
        (fun _ => .error "down") =
      [⟨"text", pesticideHead ++ "" ++ pesticideTail⟩] :=
  c4_pesticide_query_verbatim "" [("query", Json.str "")] (fun _ => .error "down") rfl

/-- C5: the posts handler reads `limit` (default 5 when absent), truncates
the fetched collection client-side to the first `limit` entries, and
formats each retained entry as id, title and a body excerpt of at most 103
characters (at most 100 body characters plus the 3-character ellipsis);
with `limit = 3` and a provider returning at least 3 posts the result
summarizes exactly 3 posts. -/
theorem c5_posts_truncation (arguments : Args) (env : Env)
    (ts : List (Int × String × String))
    (henv : env postsUrl = .ok (.arr (ts.map mkPost))) :
    (pyGet arguments "limit" = none →
      call_tool "get_placeholder_posts" arguments env =
        [⟨"text", postsSummary (pySliceTo ts 5)⟩]) ∧
    (∀ k : Int, pyGet arguments "limit" = some (Json.num k) →
      call_tool "get_placeholder_posts" arguments env =
        [⟨"text", postsSummary (pySliceTo ts k)⟩]) ∧
    (∀ t ∈ ts, (postExcerpt t.2.2).length ≤ 103) ∧
    (pyGet arguments "limit" = some (Json.num 3) → 3 ≤ ts.length →
      (pySliceTo ts 3).length = 3) := by
  refine ⟨?_, ?_, ?_, ?_⟩
  · intro h
    rw [call_tool_posts]
    have hd : pyGetD arguments "limit" (Json.num 5) = Json.num 5 := by
      unfold pyGetD; rw [h]; rfl
    rw [hd]
    exact handlePosts_ok ts env 5 henv
  · intro k h
    rw [call_tool_posts]
    have hd : pyGetD arguments "limit" (Json.num 5) = Json.num k := by
      unfold pyGetD; rw [h]; rfl
    rw [hd]
    exact handlePosts_ok ts env k henv
  · intro t _
    unfold postExcerpt
    rw [String.length_append, List.length_asString]
    have h1 : (t.2.2.toList.take 100).length ≤ 100 := List.length_take_le _ _
    have h2 : ("..." : String).length = 3 := rfl
    omega
  · intro _ h3
    unfold pySliceTo
    rw [if_pos (by norm_num), List.length_take]
    have h4 : ((3 : Int)).toNat = 3 := rfl
    omega

/-- A sample provider collection of four well-formed posts. -/
def samplePostsData : List (Int × String × String) :=
  [(1, "T1", "B1"), (2, "T2", "B2"), (3, "T3", "B3"), (4, "T4", "B4")]

/-- C5 witness: `limit = 3` against a 4-post provider retains exactly 3. -/
theorem c5_posts_truncation_witness :
    call_tool "get_placeholder_posts" [("limit", Json.num 3)]
        (fun _ => .ok (.arr (samplePostsData.map mkPost))) =
      [⟨"text", postsSummary (pySliceTo samplePostsData 3)⟩] ∧
    (pySliceTo samplePostsData 3).length = 3 := by
  have h := c5_posts_truncation [("limit", Json.num 3)]
      (fun _ => .ok (.arr (samplePostsData.map mkPost))) samplePostsData rfl
  exact ⟨h.2.1 3 rfl, h.2.2.2 rfl (by decide)⟩

/-- C6: `limit = 0` against any provider responding with a JSON array
yields the bare `"Fetched 0 blog posts"` header and no post entries. -/
theorem c6_posts_limit_zero (arguments : Args) (env : Env) (xs : List Json)
    (hl : pyGet arguments "limit" = some (Json.num 0))
    (henv : env postsUrl = .ok (.arr xs)) :
    call_tool "get_placeholder_posts" arguments env =
      [⟨"text", "📚 Fetched 0 blog posts:\n\n"⟩] := by
  rw [call_tool_posts]
  have hd : pyGetD arguments "limit" (Json.num 5) = Json.num 0 := by
    unfold pyGetD; rw [hl]; rfl
  rw [hd]
  unfold handlePosts postsBody
  rw [henv, ok_bind]
  have h0 : pySliceTo xs (0 : Int) = [] := by simp [pySliceTo]
  rw [show pySliceByVal (Json.arr xs) (Json.num 0) = .ok (.arr (pySliceTo xs 0)) from rfl, h0]
  decide

/-- C6 witness: a one-element provider array with `limit = 0`. -/
theorem c6_posts_limit_zero_witness :
    call_tool "get_placeholder_posts" [("limit", Json.num 0)]
        (fun _ => .ok (.arr [Json.null])) =
      [⟨"text", "📚 Fetched 0 blog posts:\n\n"⟩] :=
  c6_posts_limit_zero [("limit", Json.num 0)] (fun _ => .ok (.arr [Json.null]))
    [Json.null] rfl rfl

/-- C7: every failure of the weather-handler body — a fetch failure
(network, timeout, non-2xx status, malformed payload) surfacing through
`fetch_weather_data`, or a structural key/index access failure — makes the
dispatcher return a single text block whose text starts with (hence
contains) `"Error fetching weather"`; no exception escapes the dispatch
boundary. -/
theorem c7_weather_failure_message (arguments : Args) (env : Env) (e : String)
    (h : weatherBody (pyStrOpt (pyGet arguments "city")) env = .error e) :
    call_tool "get_current_weather" arguments env =
      [⟨"text", "Error fetching weather: " ++ e⟩] ∧
    ∃ rest, "Error fetching weather: " ++ e = "Error fetching weather" ++ rest := by
  constructor
  · rw [call_tool_weather]
    unfold handleWeather
    rw [h]
  · exact ⟨": " ++ e, by rw [← String.append_assoc]; rfl⟩

/-- C7 witness: a simulated provider timeout yields the textual error. -/
theorem c7_weather_failure_message_witness :
    call_tool "get_current_weather" [("city", Json.str "London")]
        (fun _ => .error "timed out") =
      [⟨"text", "Error fetching weather: Failed to fetch weather data: timed out"⟩] := by
  have h := c7_weather_failure_message [("city", Json.str "London")]
      (fun _ => .error "timed out") "Failed to fetch weather data: timed out" rfl
  exact h.1.trans (by decide)

/-- C8: the dispatcher uses the supplied integer `limit` as-is in the
client-side truncation, with no clamping to the declared 1–100 range; in
particular `limit = 200` against a 100-post provider retains all 100
posts. -/
theorem c8_limit_unclamped (arguments : Args) (env : Env)
    (ts : List (Int × String × String)) (k : Int)
    (hl : pyGet arguments "limit" = some (Json.num k))
    (henv : env postsUrl = .ok (.arr (ts.map mkPost))) :
    call_tool "get_placeholder_posts" arguments env =
      [⟨"text", postsSummary (pySliceTo ts k)⟩] ∧
    (ts.length = 100 → k = 200 → pySliceTo ts k = ts) := by
  constructor
  · rw [call_tool_posts]
    have hd : pyGetD arguments "limit" (Json.num 5) = Json.num k := by
      unfold pyGetD; rw [hl]; rfl
    rw [hd]
    exact handlePosts_ok ts env k henv
  · intro hlen hk
    subst hk
    unfold pySliceTo
    rw [if_pos (by norm_num)]
    refine List.take_of_length_le ?_
    rw [hlen]
    decide

/-- A 100-post provider collection. -/
def hundredPosts : List (Int × String × String) := List.replicate 100 (1, "T", "B")

/-- C8 witness: `limit = 200` against the 100-post provider keeps all
100 posts. -/
theorem c8_limit_unclamped_witness :
    call_tool "get_placeholder_posts" [("limit", Json.num 200)]
        (fun _ => .ok (.arr (hundredPosts.map mkPost))) =
      [⟨"text", postsSummary (pySliceTo hundredPosts 200)⟩] ∧
    pySliceTo hundredPosts 200 = hundredPosts := by
  have h := c8_limit_unclamped [("limit", Json.num 200)]
      (fun _ => .ok (.arr (hundredPosts.map mkPost))) hundredPosts 200 rfl rfl
  exact ⟨h.1, h.2 (by decide) rfl⟩

/-- C9: a negative `limit` neither keeps the first `|limit|` entries nor
empties the result: the slice keeps all entries except the last `|limit|`,
and the `"Fetched N blog posts"` header reports the number of entries
actually retained (the entry count of the block), not the requested limit;
e.g. five posts with `limit = -1` retain 4 entries. -/
theorem c9_negative_limit (arguments : Args) (env : Env)
    (ts : List (Int × String × String)) (k : Int)
    (hk : k < 0)
    (hl : pyGet arguments "limit" = some (Json.num k))
    (henv : env postsUrl = .ok (.arr (ts.map mkPost))) :
    pySliceTo ts k = ts.take (ts.length - (-k).toNat) ∧
    call_tool "get_placeholder_posts" arguments env =
      [⟨"text", postsSummary (ts.take (ts.length - (-k).toNat))⟩] ∧
    (ts.length = 5 → k = -1 → (pySliceTo ts k).length = 4) := by
  have hslice : pySliceTo ts k = ts.take (ts.length - (-k).toNat) := by
    unfold pySliceTo
    rw [if_neg (by omega)]
  refine ⟨hslice, ?_, ?_⟩
  · rw [call_tool_posts]
    have hd : pyGetD arguments "limit" (Json.num 5) = Json.num k := by
      unfold pyGetD; rw [hl]; rfl
    rw [hd, handlePosts_ok ts env k henv, hslice]
  · intro hlen hk1
    subst hk1
    rw [hslice, List.length_take, hlen]
    decide

/-- A five-post provider collection. -/
def fivePosts : List (Int × String × String) :=
  [(1, "A", "a"), (2, "B", "b"), (3, "C", "c"), (4, "D", "d"), (5, "E", "e")]

/-- C9 witness: five posts with `limit = -1` retain the first four. -/
theorem c9_negative_limit_witness :
    call_tool "get_placeholder_posts" [("limit", Json.num (-1))]
        (fun _ => .ok (.arr (fivePosts.map mkPost))) =
      [⟨"text", postsSummary (fivePosts.take 4)⟩] ∧
    (pySliceTo fivePosts (-1)).length = 4 := by
  have h := c9_negative_limit [("limit", Json.num (-1))]
      (fun _ => .ok (.arr (fivePosts.map mkPost))) fivePosts (-1)
      (by decide) rfl rfl
  exact ⟨h.2.1.trans (by decide), h.2.2 rfl rfl⟩

/-- C10: an argument bag without the `"city"` field does not raise at the
dispatch boundary: the field read yields the null value, the handler
proceeds with the request URL for the literal city `"None"` (the result
depends on the environment only through that URL), and the dispatcher
still returns exactly one text block — either the filled-in weather report
for city `"None"` or an `"Error fetching weather"` message. -/
theorem c10_missing_city (arguments : Args) (env env2 : Env)
    (hc : pyGet arguments "city" = none)
    (hagree : env (weatherUrl "None") = env2 (weatherUrl "None")) :
    call_tool "get_current_weather" arguments env =
      call_tool "get_current_weather" arguments env2 ∧
    ∃ s, call_tool "get_current_weather" arguments env = [⟨"text", s⟩] ∧
      ((∃ temp cond hum wind, s = weatherReport "None" temp cond hum wind) ∨
       ∃ e, s = "Error fetching weather: " ++ e) := by
  have hcity : pyStrOpt (pyGet arguments "city") = "None" := by rw [hc]; rfl
  have hbodies : weatherBody "None" env = weatherBody "None" env2 :=
    weatherBody_env_congr "None" env env2 hagree
  constructor
  · rw [call_tool_weather arguments env, call_tool_weather arguments env2]
    unfold handleWeather
    rw [hcity, hbodies]
  · rw [call_tool_weather arguments env]
    unfold handleWeather
    rw [hcity]
    cases hw : weatherBody "None" env with
    | ok s => exact ⟨s, rfl, Or.inl (weatherBody_ok_shape "None" env s hw)⟩
    | error e => exact ⟨"Error fetching weather: " ++ e, rfl, Or.inr ⟨e, rfl⟩⟩

/-- C10 witness: an empty argument bag against a failing provider still
yields one text block of the stated shape. -/
theorem c10_missing_city_witness :
    ∃ s, call_tool "get_current_weather" [] (fun _ => .error "boom") = [⟨"text", s⟩] ∧
      ((∃ temp cond hum wind, s = weatherReport "None" temp cond hum wind) ∨
       ∃ e, s = "Error fetching weather: " ++ e) :=
  (c10_missing_city [] (fun _ => .error "boom") (fun _ => .error "boom") rfl rfl).2
